import Mathlib

/-!
Shallow embedding of src/run_upstream.py (S3PRL upstream pre-training driver).

The Python file is an argument-parsing and orchestration shim.  We model:
  - Python scalar values (None, bool, int, str) as an inductive Value;
  - argparse Namespace objects and YAML sub-sections as association lists
    from String to Value (Dict / ConfigSection);
  - the YAML config as a two-level association list (Config);
  - the filesystem as a structure of oracles (existence, is-directory,
    and the result of the glob over *.ckpt files in a directory);
  - external collaborators (torch.load, yaml.load, parse_prune_heads) as
    parameters of an Env structure, since their code is outside this file;
  - Python exceptions as an Err inductive, fallible code in Except Err;
  - filesystem writes (os.makedirs, shutil.copyfile) as an explicit list
    of FSEffect values returned alongside the result.
-/

/-- A Python scalar value as it appears in argparse namespaces and flat YAML
sections: None, bool, int or str. -/
inductive Value where
  | none : Value
  | bool (b : Bool) : Value
  | int (n : Int) : Value
  | str (s : String) : Value
deriving DecidableEq, Repr

/-- vars(namespace) and a flat YAML mapping: an association list of fields. -/
abbrev Dict := List (String × Value)

/-- One top-level section of the YAML config (dataloader, runner, transformer,
online): a flat mapping from keys to scalar values. -/
abbrev ConfigSection := List (String × Value)

/-- The experiment config: top-level sections by name. -/
abbrev Config := List (String × ConfigSection)

/-- Python exceptions that the shim can raise. -/
inductive Err where
  | attributeError (name : String) : Err
  | keyError (k : String) : Err
  | typeError : Err
  | valueError : Err
  | assertionError : Err
  | runtimeError (dataPath : String) : Err
  | notImplementedError : Err
  | yamlError : Err
deriving DecidableEq, Repr

/-- First-match association-list lookup, the semantics of reading a key of a
Python dict in our ordered representation. -/
def alookup {α : Type} (d : List (String × α)) (k : String) : Option α :=
  match d with
  | [] => Option.none
  | (k', v) :: rest => if k' = k then some v else alookup rest k

/-- d[k] = v on a Python dict: replace the binding in place when the key is
present, append it otherwise (insertion order preserved, as in CPython; keys
are unique in a Python dict, so replacing the first binding is replacing the
binding). -/
def dictSet {α : Type} (d : List (String × α)) (k : String) (v : α) :
    List (String × α) :=
  match d with
  | [] => [(k, v)]
  | (k', w) :: rest =>
      if k' = k then (k, v) :: rest else (k', w) :: dictSet rest k v

/-- old_dict.update(new_dict): every binding of new is written into old, new
wins on common keys (update_args in run_upstream.py). -/
def dictUpdate {α : Type} (old new : List (String × α)) : List (String × α) :=
  new.foldl (fun d p => dictSet d p.1 p.2) old

/-- 'k' in d -/
def dictContains {α : Type} (d : List (String × α)) (k : String) : Bool :=
  d.any (fun p => p.1 = k)

/-- getattr(args, k): AttributeError when the field is absent. -/
def getAttr (args : Dict) (k : String) : Except Err Value :=
  match alookup args k with
  | some v => Except.ok v
  | Option.none => Except.error (Err.attributeError k)

/-- d[k] on a flat mapping: KeyError when the key is absent. -/
def getItem (d : ConfigSection) (k : String) : Except Err Value :=
  match alookup d k with
  | some v => Except.ok v
  | Option.none => Except.error (Err.keyError k)

/-- config[k] on the two-level config: KeyError when the section is absent. -/
def getSection (config : Config) (k : String) : Except Err ConfigSection :=
  match alookup config k with
  | some v => Except.ok v
  | Option.none => Except.error (Err.keyError k)

/-- bool(v): Python truthiness of a scalar value. -/
def pyTruthy : Value → Bool
  | Value.none => false
  | Value.bool b => b
  | Value.int n => decide (n ≠ 0)
  | Value.str s => decide (s ≠ "")

/-- v != '' in Python: false only for the empty string, true for every
non-string value (no error is raised by != across types). -/
def pyNeEmptyStr : Value → Bool
  | Value.str s => decide (s ≠ "")
  | _ => true

/-- Python str.split(sep) for a one-character separator, the only shape used
in this file (split on hyphen, dot and slash): the maximal runs between
occurrences of the separator, with empty runs kept, and [""] on "". -/
def pySplitChar (sep : Char) (s : String) : List String :=
  (s.toList.foldr
    (fun ch groups =>
      if ch = sep then [] :: groups
      else
        match groups with
        | g :: gs => (ch :: g) :: gs
        | [] => [[ch]])
    [[]]).map (fun g => String.mk g)

/-- Value of a nonempty run of decimal digits, left to right; Option.none as
soon as a non-digit appears. -/
def decDigits (cs : List Char) (acc : Nat) : Option Nat :=
  match cs with
  | [] => some acc
  | c :: rest =>
      if c.isDigit then decDigits rest (acc * 10 + (c.toNat - 48))
      else Option.none

/-- int(s) on the decimal-literal shapes a checkpoint step suffix can take: an
optional sign followed by a nonempty digit run; anything else raises
ValueError (Option.none). -/
def pyInt (s : String) : Option Int :=
  match s.toList with
  | [] => Option.none
  | '-' :: rest =>
      if rest = [] then Option.none
      else (decDigits rest 0).map (fun n => -(n : Int))
  | '+' :: rest =>
      if rest = [] then Option.none
      else (decDigits rest 0).map (fun n => (n : Int))
  | cs => (decDigits cs 0).map (fun n => (n : Int))

/-- Does the string start with a slash (os.path.join absolute check). -/
def headIsSlash (s : String) : Bool :=
  match s.toList with
  | c :: _ => decide (c = '/')
  | [] => false

/-- Does the string end with a slash (os.path.join separator check). -/
def lastIsSlash (s : String) : Bool :=
  match s.toList.getLast? with
  | some c => decide (c = '/')
  | Option.none => false

/-- os.path.join for the two call shapes in this file: an absolute second part
replaces the first, otherwise a slash is inserted unless already present. -/
def osPathJoin (a b : String) : String :=
  if headIsSlash b then b
  else if a = "" ∨ lastIsSlash a then a ++ b
  else a ++ "/" ++ b

/-- path.split('/')[-1], the basename computation used before copyfile. -/
def lastSlashComponent (s : String) : String :=
  (pySplitChar '/' s).getLastD ""

/-- Stable insertion of an element into a list from the left: the element
passes over everything that compares below-or-equal, so it lands after any
element with an equal key. -/
def insertSorted {α : Type} (le : α → α → Bool) (a : α) : List α → List α
  | [] => [a]
  | b :: rest => if le b a then b :: insertSorted le a rest else a :: b :: rest

/-- Python's sorted(): the stable ascending sort of the list under le,
computed here by stable insertion sort (the output of any stable ascending
sort is the same list). -/
def pySorted {α : Type} (le : α → α → Bool) (l : List α) : List α :=
  l.foldl (fun acc a => insertSorted le a acc) []

/-- The filesystem oracles the shim consults: os.path.exists, os.path.isdir,
and the sorted-by-name result of glob.glob over the *.ckpt pattern inside a
resume directory. -/
structure FS where
  pathExists : String → Bool
  pathIsDir : String → Bool
  globCkpt : String → List String

/-- The checkpoint record consumed on resume: its Settings entry holds Paras
(the saved argparse namespace) and Config (the saved config). -/
structure Ckpt where
  paras : Dict
  config : Config

/-- External collaborators of the shim, outside src/: torch.load on a
checkpoint path, yaml.load on the two config files, and
utility.helper.parse_prune_heads (an in-place normalization of the config). -/
structure Env where
  fs : FS
  torchLoad : String → Ckpt
  yamlLoadConfig : String → Except Err Config
  yamlLoadOnline : String → Except Err ConfigSection
  pruneHeads : Config → Config

/-- int(pth.split('-')[-1].split('.')[0]): the sort key applied to each
candidate checkpoint path; parse failure is a ValueError (Option.none). -/
def ckptSortKey (pth : String) : Option Int :=
  pyInt ((pySplitChar '.' ((pySplitChar '-' pth).getLastD "")).headD "")

/-- Pair every candidate with its numeric key; the whole computation fails
(ValueError) as soon as one key fails to parse, as sorted() does when the
key function raises. -/
def keyedCkpts : List String → Option (List (Int × String))
  | [] => some []
  | p :: rest =>
      match ckptSortKey p, keyedCkpts rest with
      | some k, some ps => some ((k, p) :: ps)
      | _, _ => Option.none

/-- Comparison of keyed candidates by their integer key. -/
def ckptLe (a b : Int × String) : Bool := decide (a.1 ≤ b.1)

/-- sorted(ckpts, key=lambda pth: int(pth.split('-')[-1].split('.')[0])):
every key is computed (a single failure raises ValueError), then a stable
ascending sort by the integer keys. -/
def sortCkpts (ckpts : List String) : Except Err (List String) :=
  match keyedCkpts ckpts with
  | Option.none => Except.error Err.valueError
  | some keyed => Except.ok ((pySorted ckptLe keyed).map Prod.snd)

/-- ckpts[-1] on a list known to be nonempty: its last element ("" is the
unreachable empty-list value, guarded by the assert). -/
def lastString : List String → String
  | [] => ""
  | [a] => a
  | _ :: b :: rest => lastString (b :: rest)

/-- Lines 71-77 of run_upstream.py: if the resume path is a directory, glob
its *.ckpt files, assert some exist, sort by the numeric suffix and take the
last; otherwise use the resume path itself as the checkpoint file. -/
def selectResumeCkpt (fs : FS) (resume : String) : Except Err String :=
  if fs.pathIsDir resume then
    let ckpts := fs.globCkpt resume
    if ckpts.length > 0 then
      (sortCkpts ckpts).map (fun sorted => lastString sorted)
    else Except.error Err.assertionError
  else Except.ok resume

/-- Lines 79-88: resolve the checkpoint file, torch.load it, overwrite the
CLI namespace with the stored Paras (update_args), take Config wholesale from
the checkpoint, then write the resolved path into the resume field. -/
def resumeBranch (env : Env) (args : Dict) (rp : String) :
    Except Err (Dict × Config) := do
  let rc ← selectResumeCkpt env.fs rp
  let ckpt := env.torchLoad rc
  let args1 := dictUpdate args ckpt.paras
  let config := ckpt.config
  let args2 := dictSet args1 "resume" (Value.str rc)
  pure (args2, config)

/-- Lines 63-69: no resume path given; set gpu = not cpu, yaml-load the
config, normalize prune heads, and attach the online section when an
online config path was supplied. -/
def nonResumeBranch (env : Env) (args : Dict) : Except Err (Dict × Config) := do
  let cpuV ← getAttr args "cpu"
  let args1 := dictSet args "gpu" (Value.bool (! pyTruthy cpuV))
  let cfgV ← getAttr args1 "config"
  match cfgV with
  | Value.str cfgPath => do
      let config0 ← env.yamlLoadConfig cfgPath
      let config := env.pruneHeads config0
      let onV ← getAttr args1 "online_config"
      match onV with
      | Value.none => pure (args1, config)
      | Value.str op => do
          let osec ← env.yamlLoadOnline op
          pure (args1, dictSet config "online" osec)
      | _ => Except.error Err.typeError
  | _ => Except.error Err.typeError

/-- get_upstream_args after argparse: branch on whether args.resume is None
(lines 63-90).  A non-None, non-string resume value makes os.path.isdir
raise TypeError. -/
def get_upstream_args (env : Env) (args : Dict) : Except Err (Dict × Config) :=
  match alookup args "resume" with
  | Option.none => Except.error (Err.attributeError "resume")
  | some Value.none => nonResumeBranch env args
  | some (Value.str rp) => resumeBranch env args rp
  | some _ => Except.error Err.typeError

/-- The keyword record handed to get_Dataloader (line 106): the arguments of
the construction, recorded instead of performed since the dataloader lives
outside this file. -/
structure DataloaderCall where
  split : String
  load : String
  use_gpu : Value
  run_mam : Bool
  mam_config : ConfigSection
  kwargs : ConfigSection
deriving DecidableEq, Repr

/-- get_dataloader (lines 96-109): check the configured data path exists
(RuntimeError otherwise), read train_set for the log line, pick duo versus
acoustic from runner.duo_feature, read target_path for the duo log line, and
record the get_Dataloader construction. -/
def get_dataloader (fs : FS) (args : Dict) (config : Config) :
    Except Err DataloaderCall := do
  let dlconf ← getSection config "dataloader"
  let dataPathV ← getItem dlconf "data_path"
  match dataPathV with
  | Value.str dataPath =>
      if ! fs.pathExists dataPath then
        Except.error (Err.runtimeError dataPath)
      else do
        let _ ← getItem dlconf "train_set"
        let runnerConf ← getSection config "runner"
        let duoV ← getItem runnerConf "duo_feature"
        let load := if pyTruthy duoV then "duo" else "acoustic"
        let _ ← (if pyTruthy duoV then do
            let _ ← getItem dlconf "target_path"
            pure ()
          else pure ())
        let gpuV ← getAttr args "gpu"
        let mamConf ← getSection config "transformer"
        pure { split := "train", load := load, use_gpu := gpuV,
               run_mam := true, mam_config := mamConf, kwargs := dlconf }
  | _ => Except.error Err.typeError

/-- A filesystem write performed by run_transformer. -/
inductive FSEffect where
  | makedirs (path : String) : FSEffect
  | copyfile (src dst : String) : FSEffect
deriving DecidableEq, Repr

/-- The dataloader run_transformer ends up constructing: the online one
(get_online_Dataloader(args, config, is_train=True)) or the static one. -/
inductive DL where
  | online (args : Dict) (config : Config) : DL
  | static (call : DataloaderCall) : DL

/-- What run_transformer hands to Runner(args, config, dataloader, ckpdir). -/
structure TransformerRun where
  ckpdir : String
  dataloader : DL

/-- Lines 119-123: when args.ckpdir is the empty string, synthesize the name
run_<randint(0,999)> when args.name is None, and join it under the default
prefix; otherwise use args.ckpdir itself.  r is the value drawn by
random.randint(0, 999). -/
def resolveCkpdir (r : Nat) (args : Dict) : Except Err String := do
  let ckpdirV ← getAttr args "ckpdir"
  match ckpdirV with
  | Value.str "" => do
      let nameV ← getAttr args "name"
      match nameV with
      | Value.none =>
          pure (osPathJoin "result/result_transformer/" ("run_" ++ toString r))
      | Value.str s => pure (osPathJoin "result/result_transformer/" s)
      | _ => Except.error Err.typeError
  | Value.str s => pure s
  | _ => Except.error Err.typeError

/-- Lines 130-134: choose the dataloader; an online section in the config
selects get_online_Dataloader and get_dataloader is never entered. -/
def chooseDataloader (fs : FS) (args : Dict) (config : Config)
    (ckpdir : String) (eff : List FSEffect) :
    List FSEffect × Except Err TransformerRun :=
  if dictContains config "online" then
    (eff, Except.ok { ckpdir := ckpdir, dataloader := DL.online args config })
  else
    match get_dataloader fs args config with
    | Except.error e => (eff, Except.error e)
    | Except.ok call =>
        (eff, Except.ok { ckpdir := ckpdir, dataloader := DL.static call })

/-- run_transformer (lines 115-139) up to the Runner hand-off: resolve the
checkpoint directory, create it when absent, copy the config file (and the
online config file when given) into it under its original basename, then
choose the dataloader.  The filesystem writes performed before a failure are
returned alongside the outcome. -/
def run_transformer (fs : FS) (r : Nat) (args : Dict) (config : Config) :
    List FSEffect × Except Err TransformerRun :=
  match resolveCkpdir r args with
  | Except.error e => ([], Except.error e)
  | Except.ok ckpdir =>
    let eff0 : List FSEffect :=
      if fs.pathExists ckpdir then [] else [FSEffect.makedirs ckpdir]
    match getAttr args "config" with
    | Except.error e => (eff0, Except.error e)
    | Except.ok (Value.str cfgPath) =>
      let eff1 := eff0 ++
        [FSEffect.copyfile cfgPath (osPathJoin ckpdir (lastSlashComponent cfgPath))]
      match getAttr args "online_config" with
      | Except.error e => (eff1, Except.error e)
      | Except.ok Value.none => chooseDataloader fs args config ckpdir eff1
      | Except.ok (Value.str op) =>
          chooseDataloader fs args config ckpdir (eff1 ++
            [FSEffect.copyfile op (osPathJoin ckpdir (lastSlashComponent op))])
      | Except.ok _ => (eff1, Except.error Err.typeError)
    | Except.ok _ => (eff0, Except.error Err.typeError)

/-- The fixed inference options of test_transformer (lines 147-155). -/
structure TestOptions where
  ckpt_file : Value
  load_pretrain : String
  no_grad : String
  dropout : String
  spec_aug : String
  spec_aug_prev : String
  weighted_sum : String
  select_layer : Int
deriving DecidableEq, Repr

/-- test_transformer (lines 145-158): build the fixed option dict around
args.test and record the TRANSFORMER(options, input_dim) load. -/
def test_transformer (args : Dict) (input_dim : Value) :
    Except Err (TestOptions × Value) := do
  let t ← getAttr args "test"
  pure ({ ckpt_file := t, load_pretrain := "True", no_grad := "True",
          dropout := "default", spec_aug := "False", spec_aug_prev := "True",
          weighted_sum := "False", select_layer := -1 }, input_dim)

/-- The action main dispatches to after seeding (lines 186-197). -/
inductive MainAction where
  | testTransformer (opts : TestOptions) (input_dim : Value) : MainAction
  | trainTransformer (run : TransformerRun) : MainAction
  | runApc (seed : Value) : MainAction
  | nothing : MainAction

/-- The dispatch stage of main (lines 186-197), after get_upstream_args and
the seeding calls: branch on args.run and on args.test != '', returning the
filesystem writes performed and the resulting action or exception. -/
def mainDispatch (fs : FS) (r : Nat) (args : Dict) (config : Config) :
    List FSEffect × Except Err MainAction :=
  match getAttr args "run" with
  | Except.error e => ([], Except.error e)
  | Except.ok runV =>
    if runV = Value.str "transformer" then
      match getAttr args "test" with
      | Except.error e => ([], Except.error e)
      | Except.ok testV =>
        if pyNeEmptyStr testV then
          match getSection config "transformer" with
          | Except.error e => ([], Except.error e)
          | Except.ok tconf =>
            match getItem tconf "input_dim" with
            | Except.error e => ([], Except.error e)
            | Except.ok dim =>
              match test_transformer args dim with
              | Except.error e => ([], Except.error e)
              | Except.ok (opts, d) =>
                  ([], Except.ok (MainAction.testTransformer opts d))
        else
          match run_transformer fs r args config with
          | (eff, Except.error e) => (eff, Except.error e)
          | (eff, Except.ok run) => (eff, Except.ok (MainAction.trainTransformer run))
    else if runV = Value.str "apc" then
      match getAttr args "test" with
      | Except.error e => ([], Except.error e)
      | Except.ok testV =>
        if pyNeEmptyStr testV then ([], Except.error Err.notImplementedError)
        else
          match getAttr args "seed" with
          | Except.error e => ([], Except.error e)
          | Except.ok seedV => ([], Except.ok (MainAction.runApc seedV))
    else ([], Except.ok MainAction.nothing)

/-!  Lemmas about the dictionary operations. -/

theorem alookup_append {α : Type} (d e : List (String × α)) (k : String) :
    alookup (d ++ e) k =
      match alookup d k with
      | some v => some v
      | Option.none => alookup e k := by
  induction d with
  | nil => simp [alookup]
  | cons p rest ih =>
      obtain ⟨k', v⟩ := p
      by_cases h : k' = k
      · simp [alookup, h]
      · simp [alookup, h, ih]

theorem alookup_of_no_key {α : Type} (d : List (String × α)) (k : String)
    (h : ∀ p ∈ d, p.1 ≠ k) : alookup d k = Option.none := by
  induction d with
  | nil => rfl
  | cons p rest ih =>
      obtain ⟨k', v⟩ := p
      have hk : k' ≠ k := h (k', v) (List.mem_cons_self _ _)
      simp only [alookup, if_neg hk]
      exact ih (fun q hq => h q (List.mem_cons_of_mem _ hq))

theorem alookup_dictSet {α : Type} (d : List (String × α)) (k k' : String)
    (v : α) :
    alookup (dictSet d k v) k' = if k' = k then some v else alookup d k' := by
  induction d with
  | nil =>
      by_cases h : k' = k
      · subst h
        simp [dictSet, alookup]
      · simp [dictSet, alookup, h, Ne.symm h]
  | cons p rest ih =>
      obtain ⟨a, b⟩ := p
      by_cases ha : a = k
      · subst ha
        by_cases hk : k' = a
        · subst hk
          simp [dictSet, alookup]
        · simp [dictSet, alookup, hk, Ne.symm hk]
      · by_cases hak : a = k'
        · subst hak
          simp [dictSet, alookup, ha]
        · simp [dictSet, alookup, ha, hak, ih]

theorem alookup_dictUpdate {α : Type} (old new : List (String × α))
    (k : String) (hnd : (new.map Prod.fst).Nodup) :
    alookup (dictUpdate old new) k =
      (alookup new k).orElse (fun _ => alookup old k) := by
  induction new generalizing old with
  | nil => simp [dictUpdate, alookup, Option.orElse]
  | cons p rest ih =>
      obtain ⟨a, b⟩ := p
      simp only [List.map_cons, List.nodup_cons] at hnd
      obtain ⟨hanotin, hndrest⟩ := hnd
      have hstep : dictUpdate old ((a, b) :: rest) =
          dictUpdate (dictSet old a b) rest := rfl
      rw [hstep, ih (dictSet old a b) hndrest]
      by_cases hk : a = k
      · subst hk
        have hrest : alookup rest a = Option.none := by
          apply alookup_of_no_key
          intro q hq hqa
          exact hanotin (hqa ▸ List.mem_map_of_mem Prod.fst hq)
        rw [hrest]
        simp [alookup, alookup_dictSet, Option.orElse]
      · have h1 : alookup ((a, b) :: rest) k = alookup rest k := by
          simp [alookup, hk]
        rw [h1]
        cases hr : alookup rest k with
        | none => simp [alookup_dictSet, Ne.symm hk, Option.orElse]
        | some w => simp [Option.orElse]

/-!  Lemmas about the stable insertion sort that models Python's sorted. -/

theorem insertSorted_perm {α : Type} (le : α → α → Bool) (a : α)
    (l : List α) : (insertSorted le a l).Perm (a :: l) := by
  induction l with
  | nil => simp [insertSorted]
  | cons b rest ih =>
      by_cases h : le b a = true
      · simp only [insertSorted, if_pos h]
        exact (ih.cons b).trans (List.Perm.swap a b rest)
      · simp only [insertSorted, if_neg h]
        exact List.Perm.refl _

theorem insertSorted_pairwise {α : Type} (le : α → α → Bool)
    (htrans : ∀ x y z, le x y = true → le y z = true → le x z = true)
    (htotal : ∀ x y, le x y = true ∨ le y x = true)
    (a : α) (l : List α) (hp : l.Pairwise (fun x y => le x y = true)) :
    (insertSorted le a l).Pairwise (fun x y => le x y = true) := by
  induction l with
  | nil => simp [insertSorted]
  | cons b rest ih =>
      rcases List.pairwise_cons.mp hp with ⟨hb, hrest⟩
      by_cases h : le b a = true
      · simp only [insertSorted, if_pos h]
        refine List.pairwise_cons.mpr ⟨?_, ih hrest⟩
        intro x hx
        have hx' : x ∈ a :: rest := (insertSorted_perm le a rest).mem_iff.mp hx
        rcases List.mem_cons.mp hx' with rfl | hxr
        · exact h
        · exact hb x hxr
      · simp only [insertSorted, if_neg h]
        have hab : le a b = true := by
          rcases htotal a b with hh | hh
          · exact hh
          · exact absurd hh h
        refine List.pairwise_cons.mpr ⟨?_, hp⟩
        intro x hx
        rcases List.mem_cons.mp hx with rfl | hxr
        · exact hab
        · exact htrans a b x hab (hb x hxr)

theorem pySorted_perm_aux {α : Type} (le : α → α → Bool) (l acc : List α) :
    (l.foldl (fun acc a => insertSorted le a acc) acc).Perm (acc ++ l) := by
  induction l generalizing acc with
  | nil => simp
  | cons a rest ih =>
      simp only [List.foldl_cons]
      refine (ih (insertSorted le a acc)).trans ?_
      refine (List.Perm.append_right rest (insertSorted_perm le a acc)).trans ?_
      exact List.perm_middle.symm

theorem pySorted_perm {α : Type} (le : α → α → Bool) (l : List α) :
    (pySorted le l).Perm l := by
  have h := pySorted_perm_aux le l []
  simpa [pySorted] using h

theorem pySorted_pairwise_aux {α : Type} (le : α → α → Bool)
    (htrans : ∀ x y z, le x y = true → le y z = true → le x z = true)
    (htotal : ∀ x y, le x y = true ∨ le y x = true)
    (l acc : List α) (hacc : acc.Pairwise (fun x y => le x y = true)) :
    (l.foldl (fun acc a => insertSorted le a acc) acc).Pairwise
      (fun x y => le x y = true) := by
  induction l generalizing acc with
  | nil => simpa
  | cons a rest ih =>
      simp only [List.foldl_cons]
      exact ih _ (insertSorted_pairwise le htrans htotal a acc hacc)

theorem pySorted_pairwise {α : Type} (le : α → α → Bool)
    (htrans : ∀ x y z, le x y = true → le y z = true → le x z = true)
    (htotal : ∀ x y, le x y = true ∨ le y x = true) (l : List α) :
    (pySorted le l).Pairwise (fun x y => le x y = true) :=
  pySorted_pairwise_aux le htrans htotal l [] (List.Pairwise.nil)

/-!  Lemmas about the keyed candidates and the last element. -/

theorem keyedCkpts_map_snd (l : List String) (ps : List (Int × String))
    (h : keyedCkpts l = some ps) : ps.map Prod.snd = l := by
  induction l generalizing ps with
  | nil =>
      simp only [keyedCkpts, Option.some.injEq] at h
      subst h
      rfl
  | cons p rest ih =>
      simp only [keyedCkpts] at h
      cases hk : ckptSortKey p with
      | none => rw [hk] at h; simp at h
      | some k =>
          cases hr : keyedCkpts rest with
          | none => rw [hk, hr] at h; simp at h
          | some ps' =>
              rw [hk, hr] at h
              simp only [Option.some.injEq] at h
              subst h
              simp [ih ps' hr]

theorem keyedCkpts_key (l : List String) (ps : List (Int × String))
    (h : keyedCkpts l = some ps) :
    ∀ q ∈ ps, ckptSortKey q.2 = some q.1 := by
  induction l generalizing ps with
  | nil =>
      simp only [keyedCkpts, Option.some.injEq] at h
      subst h
      intro q hq
      simp at hq
  | cons p rest ih =>
      simp only [keyedCkpts] at h
      cases hk : ckptSortKey p with
      | none => rw [hk] at h; simp at h
      | some k =>
          cases hr : keyedCkpts rest with
          | none => rw [hk, hr] at h; simp at h
          | some ps' =>
              rw [hk, hr] at h
              simp only [Option.some.injEq] at h
              subst h
              intro q hq
              rcases List.mem_cons.mp hq with rfl | hq'
              · exact hk
              · exact ih ps' hr q hq'

theorem keyedCkpts_isSome (l : List String)
    (h : ∀ c ∈ l, (ckptSortKey c).isSome = true) :
    ∃ ps, keyedCkpts l = some ps := by
  induction l with
  | nil => exact ⟨[], rfl⟩
  | cons p rest ih =>
      have hp : (ckptSortKey p).isSome = true := h p (List.mem_cons_self _ _)
      obtain ⟨k, hk⟩ := Option.isSome_iff_exists.mp hp
      obtain ⟨ps', hr⟩ := ih (fun c hc => h c (List.mem_cons_of_mem _ hc))
      refine ⟨(k, p) :: ps', ?_⟩
      simp only [keyedCkpts, hk, hr]

theorem lastString_eq_getLast (l : List String) (h : l ≠ []) :
    lastString l = l.getLast h := by
  induction l with
  | nil => exact absurd rfl h
  | cons a rest ih =>
      by_cases hr : rest = []
      · subst hr
        rfl
      · rw [List.getLast_cons hr, ← ih hr]
        cases rest with
        | nil => exact absurd rfl hr
        | cons b rest' => rfl

theorem lastString_map_snd (ms : List (Int × String)) (h : ms ≠ []) :
    lastString (ms.map Prod.snd) = (ms.getLast h).2 := by
  induction ms with
  | nil => exact absurd rfl h
  | cons a rest ih =>
      by_cases hr : rest = []
      · subst hr
        rfl
      · have hmapne : rest.map Prod.snd ≠ [] := by
          simpa using hr
        rw [List.getLast_cons hr, ← ih hr]
        cases rest with
        | nil => exact absurd rfl hr
        | cons b rest' => rfl

theorem pairwise_getLast_ge {α : Type} (le : α → α → Bool)
    (l : List α) :
    ∀ (h : l ≠ []), l.Pairwise (fun x y => le x y = true) →
      (∀ x, le x x = true) →
      ∀ a ∈ l, le a (l.getLast h) = true := by
  induction l with
  | nil => intro h; exact absurd rfl h
  | cons b rest ih =>
      intro h hp hrefl a ha
      rcases List.pairwise_cons.mp hp with ⟨hb, hrest⟩
      by_cases hre : rest = []
      · subst hre
        have : a = b := by simpa using ha
        subst this
        exact hrefl a
      · rw [List.getLast_cons hre]
        rcases List.mem_cons.mp ha with rfl | har
        · exact hb _ (List.getLast_mem hre)
        · exact ih hre hrest hrefl a har

/-!  Claim theorems. -/

/-- Claim C1: for every resume directory whose checkpoint candidates all end
in a hyphen-separated numeric step suffix before the extension,
get_upstream_args (through selectResumeCkpt, lines 71-75) selects the
candidate whose parsed integer suffix is maximal over all candidates (not the
lexicographically last string: the sort key is the parsed integer). -/
theorem c1_resume_selects_max_suffix (fs : FS) (rp : String)
    (hdir : fs.pathIsDir rp = true)
    (hne : fs.globCkpt rp ≠ [])
    (hkeys : ∀ c ∈ fs.globCkpt rp, (ckptSortKey c).isSome = true) :
    ∃ sel k, selectResumeCkpt fs rp = Except.ok sel ∧
      sel ∈ fs.globCkpt rp ∧ ckptSortKey sel = some k ∧
      ∀ c ∈ fs.globCkpt rp, ∀ k', ckptSortKey c = some k' → k' ≤ k := by
  obtain ⟨ps, hps⟩ := keyedCkpts_isSome (fs.globCkpt rp) hkeys
  have hlen : (fs.globCkpt rp).length > 0 := List.length_pos.mpr hne
  have hsel : selectResumeCkpt fs rp =
      Except.ok (lastString ((pySorted ckptLe ps).map Prod.snd)) := by
    simp [selectResumeCkpt, hdir, hlen, sortCkpts, hps, Except.map]
  have hpsne : ps ≠ [] := by
    intro hnil
    apply hne
    have hm := keyedCkpts_map_snd _ _ hps
    rw [hnil] at hm
    simpa using hm.symm
  have hperm : (pySorted ckptLe ps).Perm ps := pySorted_perm _ _
  have hmsne : pySorted ckptLe ps ≠ [] := by
    intro hnil
    apply hpsne
    have hl := hperm.length_eq
    rw [hnil] at hl
    exact (List.length_eq_zero.mp hl.symm)
  have htrans : ∀ x y z : Int × String,
      ckptLe x y = true → ckptLe y z = true → ckptLe x z = true := by
    intro x y z hxy hyz
    simp only [ckptLe, decide_eq_true_eq] at hxy hyz ⊢
    exact le_trans hxy hyz
  have htotal : ∀ x y : Int × String,
      ckptLe x y = true ∨ ckptLe y x = true := by
    intro x y
    simp only [ckptLe, decide_eq_true_eq]
    exact le_total x.1 y.1
  have hrefl : ∀ x : Int × String, ckptLe x x = true := by
    intro x
    simp [ckptLe]
  have hpair := pySorted_pairwise ckptLe htrans htotal ps
  have hlast := lastString_map_snd (pySorted ckptLe ps) hmsne
  have hlpms : (pySorted ckptLe ps).getLast hmsne ∈ pySorted ckptLe ps :=
    List.getLast_mem hmsne
  have hlpps : (pySorted ckptLe ps).getLast hmsne ∈ ps := hperm.subset hlpms
  have hkeyprop := keyedCkpts_key _ _ hps
  refine ⟨((pySorted ckptLe ps).getLast hmsne).2,
          ((pySorted ckptLe ps).getLast hmsne).1, ?_, ?_, ?_, ?_⟩
  · rw [hsel, hlast]
  · rw [← keyedCkpts_map_snd _ _ hps]
    exact List.mem_map_of_mem Prod.snd hlpps
  · exact hkeyprop _ hlpps
  · intro c hc k' hk'
    rw [← keyedCkpts_map_snd _ _ hps] at hc
    obtain ⟨q, hqps, hq2⟩ := List.mem_map.mp hc
    have hqms : q ∈ pySorted ckptLe ps := hperm.mem_iff.mpr hqps
    have hle := pairwise_getLast_ge ckptLe (pySorted ckptLe ps) hmsne hpair
      hrefl q hqms
    have hkey := hkeyprop q hqps
    rw [hq2, hk'] at hkey
    have hk'q : k' = q.1 := by
      exact (Option.some.injEq _ _).mp hkey
    simp only [ckptLe, decide_eq_true_eq] at hle
    rw [hk'q]
    exact hle

/-- Resume directory for the C1 witness: two checkpoints whose numeric
suffixes order them opposite to their lexicographic string order. -/
def wFS1 : FS :=
  { pathExists := fun _ => false,
    pathIsDir := fun p => decide (p = "ckpts"),
    globCkpt := fun _ => ["ckpts/model-9.ckpt", "ckpts/model-10.ckpt"] }

/-- Witness for C1: in a directory with model-9.ckpt and model-10.ckpt the
selection returns model-10.ckpt (maximal suffix 10), although model-9.ckpt is
the lexicographically last string of the two. -/
theorem c1_resume_selects_max_suffix_witness :
    (∃ sel k, selectResumeCkpt wFS1 "ckpts" = Except.ok sel ∧
      sel ∈ wFS1.globCkpt "ckpts" ∧ ckptSortKey sel = some k ∧
      ∀ c ∈ wFS1.globCkpt "ckpts", ∀ k', ckptSortKey c = some k' → k' ≤ k) ∧
    selectResumeCkpt wFS1 "ckpts" = Except.ok "ckpts/model-10.ckpt" :=
  ⟨c1_resume_selects_max_suffix wFS1 "ckpts" (by decide) (by decide)
    (by decide), by rfl⟩

/-- Claim C2: when a resume path is given and the checkpoint at the resolved
path rc is loaded, get_upstream_args returns the CLI namespace overwritten
field-by-field by the checkpoint's Settings.Paras (checkpoint wins on every
common field, CLI-only fields survive), the Config taken wholesale from the
checkpoint's Settings.Config, and the resume field set to the resolved
checkpoint file path (the setattr on line 88 runs after update_args). -/
theorem c2_resume_overrides (env : Env) (args : Dict) (rp rc : String)
    (h1 : alookup args "resume" = some (Value.str rp))
    (h2 : selectResumeCkpt env.fs rp = Except.ok rc)
    (hnd : ((env.torchLoad rc).paras.map Prod.fst).Nodup) :
    get_upstream_args env args =
      Except.ok
        (dictSet (dictUpdate args (env.torchLoad rc).paras) "resume"
          (Value.str rc),
         (env.torchLoad rc).config) ∧
    alookup
      (dictSet (dictUpdate args (env.torchLoad rc).paras) "resume"
        (Value.str rc)) "resume" = some (Value.str rc) ∧
    ∀ k, k ≠ "resume" →
      alookup
        (dictSet (dictUpdate args (env.torchLoad rc).paras) "resume"
          (Value.str rc)) k =
        (alookup (env.torchLoad rc).paras k).orElse
          (fun _ => alookup args k) := by
  refine ⟨?_, ?_, ?_⟩
  · simp only [get_upstream_args, h1, resumeBranch]
    rw [h2]
    rfl
  · rw [alookup_dictSet]
    simp
  · intro k hk
    rw [alookup_dictSet, if_neg hk]
    exact alookup_dictUpdate args (env.torchLoad rc).paras k hnd

/-- Checkpoint record for the resume witnesses: stored arguments that
overlap the CLI on run and seed but not on test, plus a stored config. -/
def wCkpt : Ckpt :=
  { paras := [("run", Value.str "transformer"), ("seed", Value.int 42),
              ("gpu", Value.bool true)],
    config := [("transformer", [("input_dim", Value.int 160)])] }

/-- Environment for the C2 witness, globbing the wFS1 resume directory. -/
def wEnv : Env :=
  { fs := wFS1, torchLoad := fun _ => wCkpt,
    yamlLoadConfig := fun _ => Except.error Err.yamlError,
    yamlLoadOnline := fun _ => Except.error Err.yamlError,
    pruneHeads := fun c => c }

/-- CLI namespace for the resume witnesses. -/
def wArgs : Dict :=
  [("resume", Value.str "ckpts"), ("run", Value.str "apc"),
   ("seed", Value.int 1337), ("test", Value.str "")]

/-- Witness for C2 at a concrete resume directory, checkpoint and CLI
namespace. -/
theorem c2_resume_overrides_witness :
    get_upstream_args wEnv wArgs =
      Except.ok
        (dictSet (dictUpdate wArgs (wEnv.torchLoad "ckpts/model-10.ckpt").paras)
          "resume" (Value.str "ckpts/model-10.ckpt"),
         (wEnv.torchLoad "ckpts/model-10.ckpt").config) ∧
    alookup
      (dictSet (dictUpdate wArgs (wEnv.torchLoad "ckpts/model-10.ckpt").paras)
        "resume" (Value.str "ckpts/model-10.ckpt")) "resume" =
      some (Value.str "ckpts/model-10.ckpt") ∧
    ∀ k, k ≠ "resume" →
      alookup
        (dictSet (dictUpdate wArgs (wEnv.torchLoad "ckpts/model-10.ckpt").paras)
          "resume" (Value.str "ckpts/model-10.ckpt")) k =
        (alookup (wEnv.torchLoad "ckpts/model-10.ckpt").paras k).orElse
          (fun _ => alookup wArgs k) :=
  c2_resume_overrides wEnv wArgs "ckpts" "ckpts/model-10.ckpt" (by decide)
    (by rfl) (by decide)

/-- Claim C5: a resume path that is a directory holding zero *.ckpt files
makes get_upstream_args fail (the assert on line 73) instead of returning an
(Arguments, Config) pair. -/
theorem c5_empty_resume_dir_fails (env : Env) (args : Dict) (rp : String)
    (h1 : alookup args "resume" = some (Value.str rp))
    (hdir : env.fs.pathIsDir rp = true)
    (hglob : env.fs.globCkpt rp = []) :
    get_upstream_args env args = Except.error Err.assertionError := by
  have hsel : selectResumeCkpt env.fs rp = Except.error Err.assertionError := by
    simp [selectResumeCkpt, hdir, hglob]
  simp only [get_upstream_args, h1, resumeBranch]
  rw [hsel]
  rfl

/-- Filesystem for the C5 witness: the resume path is a directory whose glob
over *.ckpt returns nothing. -/
def wFS2 : FS :=
  { pathExists := fun _ => false,
    pathIsDir := fun _ => true,
    globCkpt := fun _ => [] }

/-- Environment for the C5 witness. -/
def wEnv2 : Env :=
  { fs := wFS2, torchLoad := fun _ => wCkpt,
    yamlLoadConfig := fun _ => Except.error Err.yamlError,
    yamlLoadOnline := fun _ => Except.error Err.yamlError,
    pruneHeads := fun c => c }

/-- Witness for C5: the concrete empty resume directory fails. -/
theorem c5_empty_resume_dir_fails_witness :
    get_upstream_args wEnv2 wArgs = Except.error Err.assertionError :=
  c5_empty_resume_dir_fails wEnv2 wArgs "ckpts" (by decide) (by decide)
    (by decide)

/-- Claim C10: a resume path that is not a directory is used directly as the
checkpoint file to load (line 77): no glob, suffix parsing, sorting or
non-emptiness check is applied, and the loaded file is the resume path
itself.  The conclusion holds whatever globCkpt would return. -/
theorem c10_nondir_resume_used_directly (env : Env) (args : Dict)
    (rp : String)
    (h1 : alookup args "resume" = some (Value.str rp))
    (hnd : env.fs.pathIsDir rp = false) :
    selectResumeCkpt env.fs rp = Except.ok rp ∧
    get_upstream_args env args =
      Except.ok
        (dictSet (dictUpdate args (env.torchLoad rp).paras) "resume"
          (Value.str rp),
         (env.torchLoad rp).config) := by
  have hsel : selectResumeCkpt env.fs rp = Except.ok rp := by
    simp [selectResumeCkpt, hnd]
  refine ⟨hsel, ?_⟩
  simp only [get_upstream_args, h1, resumeBranch]
  rw [hsel]
  rfl

/-- Filesystem for the C10 witness: the resume path exists but is a file; the
glob oracle holds an unparsable name, which must not matter. -/
def wFS3 : FS :=
  { pathExists := fun _ => true,
    pathIsDir := fun _ => false,
    globCkpt := fun _ => ["garbage"] }

/-- Environment for the C10 witness. -/
def wEnv3 : Env :=
  { fs := wFS3, torchLoad := fun _ => wCkpt,
    yamlLoadConfig := fun _ => Except.error Err.yamlError,
    yamlLoadOnline := fun _ => Except.error Err.yamlError,
    pruneHeads := fun c => c }

/-- CLI namespace for the C10 witness: the resume flag points at a file. -/
def wArgs3 : Dict :=
  [("resume", Value.str "states-500.ckpt"), ("seed", Value.int 1337)]

/-- Witness for C10: a file resume path is loaded as-is. -/
theorem c10_nondir_resume_used_directly_witness :
    selectResumeCkpt wFS3 "states-500.ckpt" = Except.ok "states-500.ckpt" ∧
    get_upstream_args wEnv3 wArgs3 =
      Except.ok
        (dictSet (dictUpdate wArgs3 (wEnv3.torchLoad "states-500.ckpt").paras)
          "resume" (Value.str "states-500.ckpt"),
         (wEnv3.torchLoad "states-500.ckpt").config) :=
  c10_nondir_resume_used_directly wEnv3 wArgs3 "states-500.ckpt" (by decide)
    (by decide)

/-!  Reduction lemmas for the Except monad operations used by the do-blocks. -/

theorem except_bind_ok {ε α β : Type} (a : α) (f : α → Except ε β) :
    (Except.ok a : Except ε α) >>= f = f a := rfl

theorem except_bind_error {ε α β : Type} (e : ε) (f : α → Except ε β) :
    (Except.error e : Except ε α) >>= f = Except.error e := rfl

theorem except_pure {ε α : Type} (a : α) :
    (pure a : Except ε α) = Except.ok a := rfl

/-- The dataloader choice of run_transformer (lines 130-134), as an equation:
the effects are passed through untouched, an online section selects the
online dataloader without consulting get_dataloader (so without its data-path
check), and otherwise the outcome is exactly that of get_dataloader. -/
theorem chooseDataloader_eq (fs : FS) (args : Dict) (config : Config)
    (ckpdir : String) (eff : List FSEffect) :
    chooseDataloader fs args config ckpdir eff =
      (eff,
       if dictContains config "online" then
         Except.ok { ckpdir := ckpdir, dataloader := DL.online args config }
       else
         (get_dataloader fs args config).map
           (fun call => { ckpdir := ckpdir, dataloader := DL.static call })) := by
  unfold chooseDataloader
  by_cases h : dictContains config "online" = true
  · simp [h]
  · simp only [h, Bool.false_eq_true, if_false]
    cases hgd : get_dataloader fs args config with
    | error e => simp [Except.map]
    | ok call => simp [Except.map]

/-- Claim C3: when the configured data path does not exist, get_dataloader
raises the RuntimeError of line 99; the result is an error, so no
get_Dataloader construction (the ok payload of the embedding) takes place. -/
theorem c3_bad_data_path_errors (fs : FS) (args : Dict) (config : Config)
    (dlconf : ConfigSection) (p : String)
    (hdl : alookup config "dataloader" = some dlconf)
    (hp : alookup dlconf "data_path" = some (Value.str p))
    (hex : fs.pathExists p = false) :
    get_dataloader fs args config = Except.error (Err.runtimeError p) := by
  simp [get_dataloader, getSection, getItem, hdl, hp, hex, except_bind_ok,
        except_bind_error]

/-- Config for the C3 and C8 witnesses, with a duo_feature flag set. -/
def wConfig : Config :=
  [("dataloader",
    [("data_path", Value.str "/data/libri"),
     ("train_set", Value.str "train-clean-360"),
     ("target_path", Value.str "/data/libri_mel")]),
   ("runner", [("duo_feature", Value.bool true)]),
   ("transformer", [("input_dim", Value.int 160)])]

/-- Witness for C3: the concrete config points at /data/libri, which does not
exist in wFS1 (every pathExists query is false there). -/
theorem c3_bad_data_path_errors_witness :
    get_dataloader wFS1 wArgs wConfig =
      Except.error (Err.runtimeError "/data/libri") :=
  c3_bad_data_path_errors wFS1 wArgs wConfig
    [("data_path", Value.str "/data/libri"),
     ("train_set", Value.str "train-clean-360"),
     ("target_path", Value.str "/data/libri_mel")]
    "/data/libri" (by decide) (by decide) (by decide)

/-- Claim C8: whenever get_dataloader returns a dataloader construction, the
feature mode it passes as the load argument is duo exactly when
config.runner.duo_feature is truthy under bool(), and acoustic otherwise
(line 103). -/
theorem c8_duo_feature_mode (fs : FS) (args : Dict) (config : Config)
    (call : DataloaderCall) (runnerConf : ConfigSection) (duoV : Value)
    (h : get_dataloader fs args config = Except.ok call)
    (hrs : alookup config "runner" = some runnerConf)
    (hd : alookup runnerConf "duo_feature" = some duoV) :
    call.load = (if pyTruthy duoV then "duo" else "acoustic") ∧
    (call.load = "duo" ↔ pyTruthy duoV = true) := by
  have hload : call.load = (if pyTruthy duoV then "duo" else "acoustic") := by
    simp only [get_dataloader, getSection, getItem, getAttr] at h
    cases h1 : alookup config "dataloader" with
    | none =>
        rw [h1] at h
        simp only [except_bind_error] at h
        exact absurd h (by simp)
    | some dlconf =>
        rw [h1] at h
        simp only [except_bind_ok] at h
        cases h2 : alookup dlconf "data_path" with
        | none =>
            rw [h2] at h
            simp only [except_bind_error] at h
            exact absurd h (by simp)
        | some dpv =>
            rw [h2] at h
            simp only [except_bind_ok] at h
            cases dpv with
            | str p =>
                dsimp only [] at h
                cases hpe : fs.pathExists p with
                | false =>
                    rw [hpe] at h
                    simp at h
                | true =>
                    rw [hpe] at h
                    simp only [Bool.not_true, Bool.false_eq_true, if_false] at h
                    cases h3 : alookup dlconf "train_set" with
                    | none =>
                        rw [h3] at h
                        simp only [except_bind_error] at h
                        exact absurd h (by simp)
                    | some tsv =>
                        rw [h3] at h
                        simp only [except_bind_ok] at h
                        rw [hrs] at h
                        simp only [except_bind_ok] at h
                        rw [hd] at h
                        simp only [except_bind_ok] at h
                        cases hduo : pyTruthy duoV with
                        | true =>
                            rw [hduo] at h
                            simp only [if_true] at h
                            cases h4 : alookup dlconf "target_path" with
                            | none =>
                                rw [h4] at h
                                simp only [except_bind_error] at h
                                exact absurd h (by simp)
                            | some tpv =>
                                rw [h4] at h
                                simp only [except_bind_ok, except_pure] at h
                                cases h5 : alookup args "gpu" with
                                | none =>
                                    rw [h5] at h
                                    simp only [except_bind_error] at h
                                    exact absurd h (by simp)
                                | some gpuV =>
                                    rw [h5] at h
                                    simp only [except_bind_ok] at h
                                    cases h6 : alookup config "transformer" with
                                    | none =>
                                        rw [h6] at h
                                        simp only [except_bind_error] at h
                                        exact absurd h (by simp)
                                    | some mamConf =>
                                        rw [h6] at h
                                        simp only [except_bind_ok,
                                          except_pure, Except.ok.injEq] at h
                                        rw [← h]
                                        simp
                        | false =>
                            rw [hduo] at h
                            simp only [if_false, Bool.false_eq_true,
                              except_bind_ok, except_pure] at h
                            cases h5 : alookup args "gpu" with
                            | none =>
                                rw [h5] at h
                                simp only [except_bind_error] at h
                                exact absurd h (by simp)
                            | some gpuV =>
                                rw [h5] at h
                                simp only [except_bind_ok] at h
                                cases h6 : alookup config "transformer" with
                                | none =>
                                    rw [h6] at h
                                    simp only [except_bind_error] at h
                                    exact absurd h (by simp)
                                | some mamConf =>
                                    rw [h6] at h
                                    simp only [except_bind_ok, except_pure,
                                      Except.ok.injEq] at h
                                    rw [← h]
                                    simp
            | none =>
                simp at h
            | bool b =>
                simp at h
            | int n =>
                simp at h
  refine ⟨hload, ?_⟩
  rw [hload]
  cases hpt : pyTruthy duoV with
  | true => simp
  | false => simp

/-- Filesystem for the C8 witness: every path exists. -/
def wFS4 : FS :=
  { pathExists := fun _ => true,
    pathIsDir := fun _ => false,
    globCkpt := fun _ => [] }

/-- Namespace for the C8 witness, carrying the gpu flag get_Dataloader is
given. -/
def wArgsGpu : Dict := [("gpu", Value.bool true)]

/-- The construction get_dataloader records on the C8 witness inputs. -/
def wCall : DataloaderCall :=
  { split := "train", load := "duo", use_gpu := Value.bool true,
    run_mam := true, mam_config := [("input_dim", Value.int 160)],
    kwargs :=
      [("data_path", Value.str "/data/libri"),
       ("train_set", Value.str "train-clean-360"),
       ("target_path", Value.str "/data/libri_mel")] }

/-- Witness for C8: with duo_feature set to True the recorded load mode is
duo. -/
theorem c8_duo_feature_mode_witness :
    wCall.load = (if pyTruthy (Value.bool true) then "duo" else "acoustic") ∧
    (wCall.load = "duo" ↔ pyTruthy (Value.bool true) = true) :=
  c8_duo_feature_mode wFS4 wArgsGpu wConfig wCall
    [("duo_feature", Value.bool true)] (Value.bool true) (by rfl) (by decide)
    (by decide)

/-- Claim C6: dispatch on run = apc with a non-empty test path raises
NotImplementedError (line 195) with no filesystem write and no action, so
neither a model load nor a Runner construction is reached. -/
theorem c6_apc_test_unimplemented (fs : FS) (r : Nat) (args : Dict)
    (config : Config) (t : String)
    (hrun : alookup args "run" = some (Value.str "apc"))
    (htest : alookup args "test" = some (Value.str t))
    (ht : t ≠ "") :
    mainDispatch fs r args config =
      ([], Except.error Err.notImplementedError) := by
  have hne : pyNeEmptyStr (Value.str t) = true := by
    simp [pyNeEmptyStr, ht]
  simp [mainDispatch, getAttr, hrun, htest, hne]

/-- Namespace for the C6 witness. -/
def wArgs6 : Dict :=
  [("run", Value.str "apc"), ("test", Value.str "model.ckpt"),
   ("seed", Value.int 1337)]

/-- Witness for C6 at a concrete apc test invocation. -/
theorem c6_apc_test_unimplemented_witness :
    mainDispatch wFS1 0 wArgs6 [] =
      ([], Except.error Err.notImplementedError) :=
  c6_apc_test_unimplemented wFS1 0 wArgs6 [] "model.ckpt" (by decide)
    (by decide) (by decide)

/-- Claim C9: dispatch on run = transformer with a non-empty test path runs
only test_transformer: the result carries no filesystem write (no checkpoint
directory, no config copy), no training dataloader, and is exactly the fixed
inference-option record around args.test plus config.transformer.input_dim. -/
theorem c9_transformer_test_readonly (fs : FS) (r : Nat) (args : Dict)
    (config : Config) (t : String) (tconf : ConfigSection) (dim : Value)
    (hrun : alookup args "run" = some (Value.str "transformer"))
    (htest : alookup args "test" = some (Value.str t))
    (ht : t ≠ "")
    (htc : alookup config "transformer" = some tconf)
    (hdim : alookup tconf "input_dim" = some dim) :
    mainDispatch fs r args config =
      ([], Except.ok (MainAction.testTransformer
        { ckpt_file := Value.str t, load_pretrain := "True",
          no_grad := "True", dropout := "default", spec_aug := "False",
          spec_aug_prev := "True", weighted_sum := "False",
          select_layer := -1 } dim)) := by
  have hne : pyNeEmptyStr (Value.str t) = true := by
    simp [pyNeEmptyStr, ht]
  simp [mainDispatch, getAttr, getSection, getItem, test_transformer, hrun,
        htest, hne, htc, hdim, except_bind_ok, except_pure]

/-- Namespace for the C9 witness. -/
def wArgs9 : Dict :=
  [("run", Value.str "transformer"), ("test", Value.str "states-1000.ckpt")]

/-- Witness for C9 at a concrete transformer test invocation. -/
theorem c9_transformer_test_readonly_witness :
    mainDispatch wFS1 0 wArgs9 wConfig =
      ([], Except.ok (MainAction.testTransformer
        { ckpt_file := Value.str "states-1000.ckpt", load_pretrain := "True",
          no_grad := "True", dropout := "default", spec_aug := "False",
          spec_aug_prev := "True", weighted_sum := "False",
          select_layer := -1 } (Value.int 160))) :=
  c9_transformer_test_readonly wFS1 0 wArgs9 wConfig "states-1000.ckpt"
    [("input_dim", Value.int 160)] (Value.int 160) (by decide) (by decide)
    (by decide) (by decide) (by decide)

/-- The ckpdir synthesized on lines 119-121 when the ckpdir flag is empty and
the name flag is None: the default prefix joined with run_<r>. -/
theorem resolveCkpdir_default (r : Nat) (args : Dict)
    (hck : alookup args "ckpdir" = some (Value.str ""))
    (hname : alookup args "name" = some Value.none) :
    resolveCkpdir r args =
      Except.ok ("result/result_transformer/run_" ++ toString r) := by
  have hhead : headIsSlash ("run_" ++ toString r) = false := by
    simp [headIsSlash, String.toList, String.data_append]
  have hjoin : osPathJoin "result/result_transformer/" ("run_" ++ toString r) =
      "result/result_transformer/run_" ++ toString r := by
    simp only [osPathJoin, hhead, Bool.false_eq_true, if_false]
    rw [if_pos (Or.inr (by decide))]
    rw [← String.append_assoc]
    rw [show ("result/result_transformer/" ++ "run_" : String) =
      "result/result_transformer/run_" from rfl]
  simp only [resolveCkpdir, getAttr, hck, hname, except_bind_ok]
  rw [hjoin]
  rfl

/-- Claim C4: with the ckpdir flag empty and the name flag None,
run_transformer creates the directory result/result_transformer/run_<r> with
r the randint(0, 999) draw (so 0 ≤ r ≤ 999), and copies the active config
file into it under its original basename; when an online config path is also
given, that file is copied likewise (lines 119-128). -/
theorem c4_default_ckpdir_and_copies (fs : FS) (r : Nat) (args : Dict)
    (config : Config) (cfgPath : String) (onlineV : Value)
    (hr : r ≤ 999)
    (hck : alookup args "ckpdir" = some (Value.str ""))
    (hname : alookup args "name" = some Value.none)
    (hcfg : alookup args "config" = some (Value.str cfgPath))
    (honline : alookup args "online_config" = some onlineV)
    (hex : fs.pathExists ("result/result_transformer/run_" ++ toString r) =
      false) :
    r ≤ 999 ∧
    (run_transformer fs r args config).1 =
      [FSEffect.makedirs ("result/result_transformer/run_" ++ toString r),
       FSEffect.copyfile cfgPath
         (osPathJoin ("result/result_transformer/run_" ++ toString r)
           (lastSlashComponent cfgPath))] ++
      (match onlineV with
       | Value.str op =>
           [FSEffect.copyfile op
             (osPathJoin ("result/result_transformer/run_" ++ toString r)
               (lastSlashComponent op))]
       | _ => []) := by
  refine ⟨hr, ?_⟩
  have hres := resolveCkpdir_default r args hck hname
  simp only [run_transformer]
  rw [hres]
  simp only [hex, Bool.false_eq_true, if_false, getAttr, hcfg, honline]
  cases onlineV with
  | none => simp [chooseDataloader_eq]
  | str op => simp [chooseDataloader_eq]
  | bool b => simp
  | int n => simp

/-- Namespace for the C4 witness: default ckpdir, no name, both config
files given. -/
def wArgs4 : Dict :=
  [("ckpdir", Value.str ""), ("name", Value.none),
   ("config", Value.str "config/tera_libri.yaml"),
   ("online_config", Value.str "config/online.yaml")]

/-- Witness for C4 with the random draw 7: the directory
result/result_transformer/run_7 is created and both config files are copied
into it. -/
theorem c4_default_ckpdir_and_copies_witness :
    7 ≤ 999 ∧
    (run_transformer wFS1 7 wArgs4 []).1 =
      [FSEffect.makedirs ("result/result_transformer/run_" ++ toString 7),
       FSEffect.copyfile "config/tera_libri.yaml"
         (osPathJoin ("result/result_transformer/run_" ++ toString 7)
           (lastSlashComponent "config/tera_libri.yaml"))] ++
      (match Value.str "config/online.yaml" with
       | Value.str op =>
           [FSEffect.copyfile op
             (osPathJoin ("result/result_transformer/run_" ++ toString 7)
               (lastSlashComponent op))]
       | _ => []) :=
  c4_default_ckpdir_and_copies wFS1 7 wArgs4 [] "config/tera_libri.yaml"
    (Value.str "config/online.yaml") (by decide) (by decide) (by decide)
    (by decide) (by decide) (by decide)

/-- Claim C7: once the checkpoint directory is resolved and the config copies
are made, run_transformer constructs the online dataloader exactly when the
config has an online section, never entering get_dataloader (so its
data-path existence check is bypassed); without an online section the
outcome is exactly that of get_dataloader, including its path-check error
(lines 130-134). -/
theorem c7_online_bypass (fs : FS) (r : Nat) (args : Dict) (config : Config)
    (ckpdir : String) (cfgPath : String)
    (hres : resolveCkpdir r args = Except.ok ckpdir)
    (hcfg : alookup args "config" = some (Value.str cfgPath))
    (honline : alookup args "online_config" = some Value.none) :
    (run_transformer fs r args config).2 =
      (if dictContains config "online" then
        Except.ok { ckpdir := ckpdir, dataloader := DL.online args config }
      else
        (get_dataloader fs args config).map
          (fun call => { ckpdir := ckpdir, dataloader := DL.static call })) := by
  simp only [run_transformer]
  rw [hres]
  simp only [getAttr, hcfg, honline]
  simp [chooseDataloader_eq]

/-- Config for the C7 witness: an online section is present and the static
data path does not exist, so only the bypass can succeed. -/
def wConfigOnline : Config :=
  [("online", [("sample_rate", Value.int 16000)]),
   ("dataloader", [("data_path", Value.str "/nope")])]

/-- Namespace for the C7 witness: an explicit ckpdir. -/
def wArgs7 : Dict :=
  [("ckpdir", Value.str "exp/ckpt"), ("name", Value.none),
   ("config", Value.str "conf.yaml"), ("online_config", Value.none)]

/-- Witness for C7: with an online section and a nonexistent data path the
run still constructs the online dataloader, while get_dataloader itself
would have raised the data-path error. -/
theorem c7_online_bypass_witness :
    ((run_transformer wFS1 3 wArgs7 wConfigOnline).2 =
      (if dictContains wConfigOnline "online" then
        Except.ok { ckpdir := "exp/ckpt",
                    dataloader := DL.online wArgs7 wConfigOnline }
      else
        (get_dataloader wFS1 wArgs7 wConfigOnline).map
          (fun call => { ckpdir := "exp/ckpt",
                         dataloader := DL.static call }))) ∧
    get_dataloader wFS1 wArgs7 wConfigOnline =
      Except.error (Err.runtimeError "/nope") :=
  ⟨c7_online_bypass wFS1 3 wArgs7 wConfigOnline "exp/ckpt" "conf.yaml"
    (by rfl) (by decide) (by decide), by rfl⟩
